import Mathlib

/-!
Shallow embedding of `src/app.py`: a single-file FastAPI + PostgreSQL
service consisting of configuration read from environment variables, a
startup database-readiness retry loop, a health endpoint, and two
employee CRUD endpoints backed by one table.

Database effects are made explicit: the engine's liveness is a stream of
outcomes for successive `SELECT 1` round trips, the startup attempts are
driven by an oracle from attempt number to outcome, and the CRUD
handlers act on an explicit relational state.  A raised exception is a
value of the result type rather than control flow.
-/

namespace FastapiPostgre

/-! ## Configuration (src/app.py lines 21-31) -/

/-- An environment: maps a variable name to its value, `none` when unset. -/
def Env : Type := String → Option String

/-- Python `os.getenv(key, dflt)` with a string default. -/
def getenv (env : Env) (key dflt : String) : String :=
  (env key).getD dflt

/-- Value of a nonempty run of decimal digits, accumulator form. -/
def digitsValGo : List Char → Nat → Option Nat
  | [], acc => some acc
  | c :: cs, acc =>
    if c.isDigit then digitsValGo cs (acc * 10 + (c.toNat - 48)) else none

/-- Value of a list of decimal digit characters; `none` when the list is
empty or a non-digit appears. -/
def digitsVal (cs : List Char) : Option Nat :=
  if cs.isEmpty then none else digitsValGo cs 0

/-- Surrounding whitespace of a character list, removed. -/
def stripChars (cs : List Char) : List Char :=
  ((cs.dropWhile Char.isWhitespace).reverse.dropWhile Char.isWhitespace).reverse

/-- Python `int(s)` on a string: surrounding whitespace stripped, an
optional sign, then decimal digits; `none` models a raised `ValueError`. -/
def pyInt (s : String) : Option Int :=
  match stripChars s.toList with
  | '-' :: cs => (digitsVal cs).map (fun n => -(n : Int))
  | '+' :: cs => (digitsVal cs).map (fun n => (n : Int))
  | cs => (digitsVal cs).map (fun n => (n : Int))

/-- `APP_HOST = os.getenv("APP_HOST", "0.0.0.0")`. -/
def APP_HOST (env : Env) : String := getenv env "APP_HOST" "0.0.0.0"

/-- `APP_PORT = int(os.getenv("APP_PORT", 8000))`: the default `8000` is
already an `int` (so `int(8000) = 8000`); a set value goes through
`int()`, whose failure is `none`. -/
def APP_PORT (env : Env) : Option Int :=
  match env "APP_PORT" with
  | none => some 8000
  | some v => pyInt v

/-- `DB_USER = os.getenv("POSTGRES_USER", "appuser")`. -/
def DB_USER (env : Env) : String := getenv env "POSTGRES_USER" "appuser"

/-- `DB_PASS = os.getenv("POSTGRES_PASSWORD", "apppass")`. -/
def DB_PASS (env : Env) : String := getenv env "POSTGRES_PASSWORD" "apppass"

/-- `DB_HOST = os.getenv("POSTGRES_HOST", "postgres")`. -/
def DB_HOST (env : Env) : String := getenv env "POSTGRES_HOST" "postgres"

/-- `DB_PORT = os.getenv("POSTGRES_PORT", "5432")`. -/
def DB_PORT (env : Env) : String := getenv env "POSTGRES_PORT" "5432"

/-- `DB_NAME = os.getenv("POSTGRES_DB", "appdb")`. -/
def DB_NAME (env : Env) : String := getenv env "POSTGRES_DB" "appdb"

/-! ## Health endpoint (src/app.py lines 115-127) -/

/-- JSON body built by the `health` handler: the dict
`response = {"status": ..., "db": ...}`. -/
structure HealthBody where
  status : String
  db : String
deriving Repr, DecidableEq

/-- Outcome of the `health` handler: a plain return (served by FastAPI
with the route's default status code 200) or a raised
`HTTPException(status_code, detail)`. -/
inductive HealthResult where
  | ok (statusCode : Nat) (body : HealthBody)
  | httpException (statusCode : Nat) (detail : HealthBody)
deriving Repr, DecidableEq

/-- The `db` field of the body or detail dict of a health result. -/
def HealthResult.dbField : HealthResult → String
  | .ok _ b => b.db
  | .httpException _ b => b.db

/-- The `/health` handler.  The engine is a stream of outcomes of
successive `SELECT 1` executions on fresh connections (`true` = success,
`false` = any raised exception); the handler consumes exactly one
outcome per call and returns the unconsumed remainder of the stream.
`none` only when the stream is exhausted (no outcome left to model the
attempted ping). -/
def health : List Bool → Option (HealthResult × List Bool)
  | [] => none
  | ping :: rest =>
    let response : HealthBody := { status := "ok", db := "unknown" }
    if ping then
      some (.ok 200 { response with db := "ok" }, rest)
    else
      some (.httpException 503 { response with db := "down" }, rest)

/-- Process-wide mutable state reachable from handlers: `app.state`,
holding `db_ready` (`none` when the attribute was never set). -/
structure AppState where
  db_ready : Option Bool
deriving Repr, DecidableEq

/-- The `/health` endpoint as dispatched by the framework: the process
state (holding `db_ready`) is reachable, but the body of `health` in the
source references only the engine, never `app.state`. -/
def healthEndpoint (st : AppState) (engine : List Bool) :
    Option (HealthResult × List Bool) :=
  health engine

/-! ## Startup readiness loop (src/app.py lines 92-109) -/

/-- Outcome of one startup attempt (schema creation followed by the
liveness ping): success, a raised `OperationalError`, or any other
raised exception. -/
inductive AttemptOutcome where
  | success
  | operationalError
  | otherError (e : String)
deriving Repr, DecidableEq

/-- Observable result of running `startup_event`: the final `db_ready`
attribute (`none` = never set), the seconds slept in order, the number
of attempts made, and the exception propagated out of the handler, if
any. -/
structure StartupResult where
  db_ready : Option Bool
  waits : List Nat
  attemptsMade : Nat
  raised : Option String
deriving Repr, DecidableEq

/-- The body of the `for attempt in range(1, max_retries + 1)` loop,
with `r` the number of loop iterations remaining and `attempt` the
current attempt number.  On success: set `db_ready = True` and return.
On `OperationalError`: set `db_ready = False`, sleep
`min(2 ** attempt, 10)` seconds, continue.  On any other exception: it
propagates out of the handler.  When the loop completes without a
successful attempt, fall through to the final print and return. -/
def runStartupFrom (outcomes : Nat → AttemptOutcome) :
    Nat → Nat → Option Bool → List Nat → StartupResult
  | 0, attempt, ready, waits =>
    { db_ready := ready, waits := waits, attemptsMade := attempt - 1,
      raised := none }
  | r + 1, attempt, ready, waits =>
    match outcomes attempt with
    | .success =>
      { db_ready := some true, waits := waits, attemptsMade := attempt,
        raised := none }
    | .operationalError =>
      runStartupFrom outcomes r (attempt + 1) (some false)
        (waits ++ [min (2 ^ attempt) 10])
    | .otherError e =>
      { db_ready := ready, waits := waits, attemptsMade := attempt,
        raised := some e }

/-- `max_retries = 10`. -/
def max_retries : Nat := 10

/-- The `startup_event` handler, run once at process start, driven by
the oracle giving each attempt's outcome. -/
def startup_event (outcomes : Nat → AttemptOutcome) : StartupResult :=
  runStartupFrom outcomes max_retries 1 none []

/-- Sleep durations of `m` consecutive `OperationalError` attempts
starting at attempt number `a`: `min (2 ^ a) 10, min (2 ^ (a+1)) 10,
...`. -/
def backoffWaits : Nat → Nat → List Nat
  | _, 0 => []
  | a, m + 1 => min (2 ^ a) 10 :: backoffWaits (a + 1) m

/-! ## Employee model and CRUD handlers (src/app.py lines 54-57, 133-147) -/

/-- A row of the `employees` table: `id` integer primary key, `name`
non-null string. -/
structure Employee where
  id : Int
  name : String
deriving Repr, DecidableEq

/-- Committed state of the `employees` table, together with the serial
sequence backing the primary key. -/
structure DB where
  rows : List Employee
  nextId : Int
deriving Repr, DecidableEq

/-- The initial database: no rows, serial sequence at 1. -/
def DB.empty : DB := { rows := [], nextId := 1 }

/-- Serial invariant maintained by the database: every stored id is
below the next value of the sequence. -/
def DB.wf (db : DB) : Prop := ∀ e ∈ db.rows, e.id < db.nextId

/-- Outcome of a request handler body: a returned value, a raised
`HTTPException(status_code, detail)`, or a raised database error
(propagating out of the handler unhandled). -/
inductive HandlerOutcome (α : Type) where
  | ok (val : α)
  | httpError (statusCode : Nat) (detail : String)
  | dbError (e : String)
deriving Repr, DecidableEq

/-- The `create_employee` handler: `emp = Employee(name=payload.name)`,
`db.add(emp)`, `db.commit()` (the INSERT assigns the next serial id and
is committed), `db.refresh(emp)` (emp now carries the assigned id),
`return emp`.  `dbOk = false` means the database round trips raise, in
which case the error propagates and nothing is committed. -/
def create_employee (dbOk : Bool) (db : DB) (name : String) :
    HandlerOutcome Employee × DB :=
  if dbOk then
    let emp : Employee := { id := db.nextId, name := name }
    (.ok emp, { rows := db.rows ++ [emp], nextId := db.nextId + 1 })
  else
    (.dbError "OperationalError", db)

/-- The `get_employee` handler:
`db.query(Employee).filter(Employee.id == emp_id).first()`, then 404
when the result is falsy (no row), else return the row.  The query does
not mutate the table. -/
def get_employee (dbOk : Bool) (db : DB) (empId : Int) :
    HandlerOutcome Employee × DB :=
  if dbOk then
    match db.rows.find? (fun e => e.id == empId) with
    | some emp => (.ok emp, db)
    | none => (.httpError 404 "Employee not found", db)
  else
    (.dbError "OperationalError", db)

/-- HTTP response of an employee route as produced by the framework
layer from the handler outcome. -/
inductive EmployeeResponse where
  | success (statusCode : Nat) (body : Employee)
  | failure (statusCode : Nat) (detail : String)
deriving Repr, DecidableEq

/-- Status code of an employee route response. -/
def EmployeeResponse.statusCode : EmployeeResponse → Nat
  | .success c _ => c
  | .failure c _ => c

/-- Framework mapping from handler outcome to response: a returned value
is served with the route's default status code 200 (neither route
declaration passes `status_code=`), a raised `HTTPException` with its
own code and detail, and an unhandled exception as a 500. -/
def routeResponse : HandlerOutcome Employee → EmployeeResponse
  | .ok emp => .success 200 emp
  | .httpError c d => .failure c d
  | .dbError _ => .failure 500 "Internal Server Error"

/-- `POST /employees` end to end. -/
def postEmployees (dbOk : Bool) (db : DB) (name : String) :
    EmployeeResponse × DB :=
  let step := create_employee dbOk db name
  (routeResponse step.1, step.2)

/-- `GET /employees/{emp_id}` end to end. -/
def getEmployees (dbOk : Bool) (db : DB) (empId : Int) :
    EmployeeResponse × DB :=
  let step := get_employee dbOk db empId
  (routeResponse step.1, step.2)

/-- Run of one request through the `get_db` dependency: the handler
outcome, the resulting table state, and whether the session was closed
before the handler machinery returned. -/
structure SessionRun (α : Type) where
  outcome : HandlerOutcome α
  db : DB
  sessionClosed : Bool
deriving Repr, DecidableEq

/-- The `get_db` dependency: `db = SessionLocal()`, then
`try: yield db / finally: db.close()`.  The handler's raised exceptions
are values of `HandlerOutcome`, so the `finally` branch runs after every
outcome constructor — success, `HTTPException`, or a database fault. -/
def get_db {α : Type} (handler : DB → HandlerOutcome α × DB) (db : DB) :
    SessionRun α :=
  let step := handler db
  { outcome := step.1, db := step.2, sessionClosed := true }

/-! ## Theorems -/

/-- C1: for every call to `GET /health`, a successful ping yields
HTTP 200 with body `status = "ok", db = "ok"`; a failed ping yields a
raised `HTTPException` with status 503 and detail
`status = "ok", db = "down"`; in both cases exactly one ping is
consumed from the engine (the remainder of the stream is returned
untouched). -/
theorem health_contract (rest : List Bool) :
    health (true :: rest) =
      some (HealthResult.ok 200 { status := "ok", db := "ok" }, rest) ∧
    health (false :: rest) =
      some (HealthResult.httpException 503 { status := "ok", db := "down" },
        rest) :=
  ⟨rfl, rfl⟩

/-- C6: the result of `GET /health` is independent of `db_ready`: any
two process states (which differ at most in `db_ready`, its only field)
give the same response for the same engine stream; the handler never
reads `app.state`. -/
theorem health_independent_of_db_ready (s1 s2 : AppState)
    (engine : List Bool) :
    healthEndpoint s1 engine = healthEndpoint s2 engine :=
  rfl

/-- C10: the body produced by `GET /health` never carries
`db = "unknown"`: every produced result (plain return or raised 503)
has its `db` field overwritten to `"ok"` or `"down"`. -/
theorem health_never_unknown (engine : List Bool) (res : HealthResult)
    (rest : List Bool) (h : health engine = some (res, rest)) :
    res.dbField ≠ "unknown" := by
  cases engine with
  | nil => simp [health] at h
  | cons p r =>
    cases p <;>
      simp only [health, if_pos, if_neg, Bool.false_eq_true,
        not_false_eq_true, if_true, if_false, Option.some.injEq,
        Prod.mk.injEq] at h <;>
      rw [← h.1] <;> decide

/-- Witness for C10 at the concrete engine `[true]`. -/
theorem health_never_unknown_witness :
    (HealthResult.ok 200 { status := "ok", db := "ok" }).dbField ≠
      "unknown" :=
  health_never_unknown [true]
    (HealthResult.ok 200 { status := "ok", db := "ok" }) [] rfl

/-- Bound on the attempt counter of the startup loop: starting at
attempt `a` with `r` iterations of fuel, at most `a + r - 1` attempts
are made. -/
theorem runStartupFrom_attemptsMade_le (outcomes : Nat → AttemptOutcome) :
    ∀ (r a : Nat) (ready : Option Bool) (waits : List Nat),
      (runStartupFrom outcomes r a ready waits).attemptsMade ≤ a + r - 1 := by
  intro r
  induction r with
  | zero => intro a ready waits; simp [runStartupFrom]
  | succ r ih =>
    intro a ready waits
    cases h : outcomes a with
    | success =>
      simp only [runStartupFrom, h]
      omega
    | operationalError =>
      have hih := ih (a + 1) (some false) (waits ++ [min (2 ^ a) 10])
      simp only [runStartupFrom, h]
      omega
    | otherError e =>
      simp only [runStartupFrom, h]
      omega

/-- Behaviour of the startup loop when attempt `k` succeeds and all
earlier attempts (from the current attempt `a` on) raise
`OperationalError`: the loop sleeps the backoff schedule for attempts
`a, ..., k-1`, sets `db_ready = True` on attempt `k`, and stops. -/
theorem runStartupFrom_success (outcomes : Nat → AttemptOutcome) (k : Nat)
    (hs : outcomes k = AttemptOutcome.success) :
    ∀ (r a : Nat) (ready : Option Bool) (waits : List Nat),
      a ≤ k → k < a + r →
      (∀ i, a ≤ i → i < k → outcomes i = AttemptOutcome.operationalError) →
      runStartupFrom outcomes r a ready waits =
        { db_ready := some true, waits := waits ++ backoffWaits a (k - a),
          attemptsMade := k, raised := none } := by
  intro r
  induction r with
  | zero => intro a ready waits hak hkr hf; omega
  | succ r ih =>
    intro a ready waits hak hkr hf
    by_cases hek : a = k
    · subst hek
      rw [runStartupFrom, hs]
      simp [backoffWaits]
    · have hlt : a < k := lt_of_le_of_ne hak hek
      have hfa : outcomes a = AttemptOutcome.operationalError :=
        hf a le_rfl hlt
      rw [runStartupFrom, hfa]
      rw [ih (a + 1) (some false) (waits ++ [min (2 ^ a) 10])
        (by omega) (by omega) (fun i h1 h2 => hf i (by omega) h2)]
      have hka : k - a = (k - (a + 1)) + 1 := by omega
      rw [hka, backoffWaits]
      simp

/-- Behaviour of the startup loop when every attempt raises
`OperationalError`: all fuel is consumed, each attempt sleeps its
backoff and sets `db_ready = False`, and the loop falls through without
raising. -/
theorem runStartupFrom_allFail (outcomes : Nat → AttemptOutcome)
    (hf : ∀ i, outcomes i = AttemptOutcome.operationalError) :
    ∀ (r a : Nat) (ready : Option Bool) (waits : List Nat), 0 < r →
      runStartupFrom outcomes r a ready waits =
        { db_ready := some false, waits := waits ++ backoffWaits a r,
          attemptsMade := a + r - 1, raised := none } := by
  intro r
  induction r with
  | zero => intro a ready waits h; omega
  | succ r ih =>
    intro a ready waits _
    rw [runStartupFrom, hf a]
    cases r with
    | zero => simp [runStartupFrom, backoffWaits]
    | succ r2 =>
      rw [ih (a + 1) (some false) (waits ++ [min (2 ^ a) 10]) (by omega)]
      have hw : waits ++ backoffWaits a (r2 + 1 + 1) =
          (waits ++ [min (2 ^ a) 10]) ++ backoffWaits (a + 1) (r2 + 1) := by
        conv_lhs => rw [backoffWaits]
        simp
      have hn : a + 1 + (r2 + 1) - 1 = a + (r2 + 1 + 1) - 1 := by omega
      rw [hw, hn]

/-- Behaviour of the startup loop when attempt `k` raises an exception
other than `OperationalError` and all earlier attempts (from the current
attempt `a` on) raise `OperationalError`: the exception propagates at
attempt `k` with no further sleep and with `db_ready` left as the
previous attempt set it. -/
theorem runStartupFrom_otherError (outcomes : Nat → AttemptOutcome)
    (k : Nat) (e : String) (hs : outcomes k = AttemptOutcome.otherError e) :
    ∀ (r a : Nat) (ready : Option Bool) (waits : List Nat),
      a ≤ k → k < a + r →
      (∀ i, a ≤ i → i < k → outcomes i = AttemptOutcome.operationalError) →
      runStartupFrom outcomes r a ready waits =
        { db_ready := if a = k then ready else some false,
          waits := waits ++ backoffWaits a (k - a),
          attemptsMade := k, raised := some e } := by
  intro r
  induction r with
  | zero => intro a ready waits hak hkr hf; omega
  | succ r ih =>
    intro a ready waits hak hkr hf
    by_cases hek : a = k
    · subst hek
      rw [runStartupFrom, hs]
      simp [backoffWaits]
    · have hlt : a < k := lt_of_le_of_ne hak hek
      have hfa : outcomes a = AttemptOutcome.operationalError :=
        hf a le_rfl hlt
      rw [runStartupFrom, hfa]
      rw [ih (a + 1) (some false) (waits ++ [min (2 ^ a) 10])
        (by omega) (by omega) (fun i h1 h2 => hf i (by omega) h2)]
      have hka : k - a = (k - (a + 1)) + 1 := by omega
      rw [hka, backoffWaits]
      by_cases h1k : a + 1 = k <;> simp [hek, h1k]

/-- C2: the startup readiness loop makes at most 10 attempts; when every
attempt fails with `OperationalError` it sleeps exactly
`2, 4, 8, 10, 10, 10, 10, 10, 10, 10` seconds (the wait after the i-th
failed attempt is `min (2 ^ i) 10`), leaves `db_ready = False` and does
not raise; when attempt `k` (the first success) succeeds it sets
`db_ready = True` and stops immediately, having slept only the backoff
of the `k - 1` failed attempts before it. -/
theorem startup_retry_schedule (outcomes : Nat → AttemptOutcome) :
    (startup_event outcomes).attemptsMade ≤ 10 ∧
    ((∀ i, outcomes i = AttemptOutcome.operationalError) →
      startup_event outcomes =
        { db_ready := some false,
          waits := [2, 4, 8, 10, 10, 10, 10, 10, 10, 10],
          attemptsMade := 10, raised := none }) ∧
    (∀ k, 1 ≤ k → k ≤ 10 → outcomes k = AttemptOutcome.success →
      (∀ i, 1 ≤ i → i < k → outcomes i = AttemptOutcome.operationalError) →
      startup_event outcomes =
        { db_ready := some true, waits := backoffWaits 1 (k - 1),
          attemptsMade := k, raised := none }) := by
  refine ⟨?_, ?_, ?_⟩
  · have := runStartupFrom_attemptsMade_le outcomes 10 1 none []
    simpa [startup_event, max_retries] using this
  · intro hf
    have := runStartupFrom_allFail outcomes hf 10 1 none [] (by omega)
    rw [startup_event, max_retries, this]
    have hbw : backoffWaits 1 10 = [2, 4, 8, 10, 10, 10, 10, 10, 10, 10] := by
      decide
    rw [hbw]
    simp
  · intro k h1 h10 hs hf
    have := runStartupFrom_success outcomes k hs 10 1 none []
      (by omega) (by omega) (fun i hi1 hi2 => hf i hi1 hi2)
    rw [startup_event, max_retries, this]
    simp

/-- Witness for C2 at the oracle that always raises `OperationalError`. -/
theorem startup_retry_schedule_witness :
    startup_event (fun _ => AttemptOutcome.operationalError) =
      { db_ready := some false,
        waits := [2, 4, 8, 10, 10, 10, 10, 10, 10, 10],
        attemptsMade := 10, raised := none } :=
  (startup_retry_schedule (fun _ => AttemptOutcome.operationalError)).2.1
    (fun _ => rfl)

/-- C9: the startup loop retries only on `OperationalError`.  When
attempt `k` raises any other exception (all earlier attempts having
failed with `OperationalError`), that exception propagates out of the
handler: no further attempt is made, no sleep follows attempt `k` (the
waits are exactly those of the `k - 1` earlier failures), and attempt
`k` does not write `db_ready` (it is still unset when `k = 1`, else it
keeps the `False` written by the previous failed attempt). -/
theorem startup_other_exception (outcomes : Nat → AttemptOutcome)
    (k : Nat) (e : String) (h1 : 1 ≤ k) (h10 : k ≤ 10)
    (hk : outcomes k = AttemptOutcome.otherError e)
    (hf : ∀ i, 1 ≤ i → i < k → outcomes i = AttemptOutcome.operationalError) :
    (startup_event outcomes).raised = some e ∧
    (startup_event outcomes).attemptsMade = k ∧
    (startup_event outcomes).waits = backoffWaits 1 (k - 1) ∧
    (startup_event outcomes).db_ready =
      (if k = 1 then none else some false) := by
  have := runStartupFrom_otherError outcomes k e hk 10 1 none []
    (by omega) (by omega) (fun i hi1 hi2 => hf i hi1 hi2)
  rw [startup_event, max_retries, this]
  by_cases hk1 : 1 = k
  · subst hk1
    simp
  · have : ¬ (k = 1) := fun h => hk1 h.symm
    simp [hk1, this]

/-- Witness for C9 at the oracle that raises `ValueError` on the first
attempt. -/
theorem startup_other_exception_witness :
    (startup_event (fun _ => AttemptOutcome.otherError "ValueError")).raised
      = some "ValueError" :=
  (startup_other_exception (fun _ => AttemptOutcome.otherError "ValueError")
    1 "ValueError" (by omega) (by omega) rfl
    (fun i hi1 hi2 => absurd hi1 (by omega))).1

/-- Finding no row in a well-formed table's rows for the next serial id:
used for the create-then-read round trip. -/
theorem find_next_id_none (db : DB) (hwf : db.wf) :
    db.rows.find? (fun e => e.id == db.nextId) = none := by
  rw [List.find?_eq_none]
  intro e he
  have := hwf e he
  simp only [beq_iff_eq]
  omega

/-- C3: for every non-empty name, when the database operations succeed,
`POST /employees` with that name returns 200 with a fresh id, and
`GET /employees/{id}` at the returned id against the resulting state
returns 200 with the same id and the posted name (requires the serial
invariant `DB.wf`, which real serial columns maintain). -/
theorem create_then_get (db : DB) (name : String) (hwf : db.wf)
    (hname : name ≠ "") :
    postEmployees true db name =
      (EmployeeResponse.success 200 { id := db.nextId, name := name },
       { rows := db.rows ++ [{ id := db.nextId, name := name }],
         nextId := db.nextId + 1 }) ∧
    getEmployees true
        { rows := db.rows ++ [{ id := db.nextId, name := name }],
          nextId := db.nextId + 1 } db.nextId =
      (EmployeeResponse.success 200 { id := db.nextId, name := name },
       { rows := db.rows ++ [{ id := db.nextId, name := name }],
         nextId := db.nextId + 1 }) := by
  refine ⟨rfl, ?_⟩
  rw [getEmployees, get_employee]
  simp only [if_true]
  rw [List.find?_append, find_next_id_none db hwf]
  simp [routeResponse]

/-- Witness for C3 at the empty database and the name `"Alice"`. -/
theorem create_then_get_witness :
    postEmployees true DB.empty "Alice" =
      (EmployeeResponse.success 200 { id := 1, name := "Alice" },
       { rows := [{ id := 1, name := "Alice" }], nextId := 2 }) ∧
    getEmployees true { rows := [{ id := 1, name := "Alice" }], nextId := 2 }
        1 =
      (EmployeeResponse.success 200 { id := 1, name := "Alice" },
       { rows := [{ id := 1, name := "Alice" }], nextId := 2 }) :=
  create_then_get DB.empty "Alice"
    (fun e he => absurd he (List.not_mem_nil e)) (by decide)

/-- C4: with the database reachable, `GET /employees/{id}` for an id
held by no stored row returns 404 with detail `"Employee not found"`
and leaves the table unchanged; for an id that is present it returns
200 with a stored row carrying exactly that id, again leaving the table
unchanged. -/
theorem get_employee_contract (db : DB) (empId : Int) :
    ((∀ e ∈ db.rows, e.id ≠ empId) →
      getEmployees true db empId =
        (EmployeeResponse.failure 404 "Employee not found", db)) ∧
    ((∃ e ∈ db.rows, e.id = empId) →
      ∃ emp, emp ∈ db.rows ∧ emp.id = empId ∧
        getEmployees true db empId =
          (EmployeeResponse.success 200 emp, db)) := by
  constructor
  · intro habs
    rw [getEmployees, get_employee]
    have hnone : db.rows.find? (fun e => e.id == empId) = none := by
      rw [List.find?_eq_none]
      intro e he
      simp only [beq_iff_eq]
      exact habs e he
    simp [hnone, routeResponse]
  · intro hpres
    have hsome : (db.rows.find? (fun e => e.id == empId)).isSome := by
      rw [List.find?_isSome]
      obtain ⟨e, he, heq⟩ := hpres
      exact ⟨e, he, by simp [heq]⟩
    obtain ⟨emp, hemp⟩ := Option.isSome_iff_exists.mp hsome
    refine ⟨emp, List.mem_of_find?_eq_some hemp, ?_, ?_⟩
    · have := List.find?_some hemp
      simpa using this
    · rw [getEmployees, get_employee]
      simp [hemp, routeResponse]

/-- Witness for C4: id 5 is absent from the empty table, so the lookup
returns 404 and the state is unchanged. -/
theorem get_employee_contract_witness :
    getEmployees true DB.empty 5 =
      (EmployeeResponse.failure 404 "Employee not found", DB.empty) :=
  (get_employee_contract DB.empty 5).1
    (fun e he => absurd he (List.not_mem_nil e))

/-- C5 counterexample: the route declaration passes no `status_code=`,
so the framework serves a successful create with the default status
code 200, not 201. -/
theorem create_status_not_201 :
    (postEmployees true DB.empty "Alice").1.statusCode ≠ 201 := by
  decide

/-- C5 amended: a successful `POST /employees` inserts exactly one row
(the old rows plus one new row), assigns it the next serial id, commits
it, and responds with the persisted record under status code 200. -/
theorem create_employee_inserts_one (db : DB) (name : String) :
    postEmployees true db name =
      (EmployeeResponse.success 200 { id := db.nextId, name := name },
       { rows := db.rows ++ [{ id := db.nextId, name := name }],
         nextId := db.nextId + 1 }) :=
  rfl

/-- C7: the `get_db` dependency closes the session on every exit path:
for an arbitrary handler, and in particular for both employee endpoints
under any database reachability (success, 404, or a raised database
error), the session is closed before the machinery returns. -/
theorem session_closed_on_all_paths (db : DB) (dbOk : Bool)
    (name : String) (empId : Int)
    (handler : DB → HandlerOutcome Employee × DB) :
    (get_db handler db).sessionClosed = true ∧
    (get_db (fun s => create_employee dbOk s name) db).sessionClosed = true ∧
    (get_db (fun s => get_employee dbOk s empId) db).sessionClosed = true :=
  ⟨rfl, rfl, rfl⟩

/-- C8: each configuration value falls back to its documented default
when its environment variable is unset, and takes the environment's
value when set (for `APP_PORT`, the value as converted by `int()`). -/
theorem config_defaults (env : Env) :
    (env "POSTGRES_USER" = none → DB_USER env = "appuser") ∧
    (env "POSTGRES_PASSWORD" = none → DB_PASS env = "apppass") ∧
    (env "POSTGRES_HOST" = none → DB_HOST env = "postgres") ∧
    (env "POSTGRES_PORT" = none → DB_PORT env = "5432") ∧
    (env "POSTGRES_DB" = none → DB_NAME env = "appdb") ∧
    (env "APP_HOST" = none → APP_HOST env = "0.0.0.0") ∧
    (env "APP_PORT" = none → APP_PORT env = some 8000) ∧
    (∀ v, env "POSTGRES_USER" = some v → DB_USER env = v) ∧
    (∀ v, env "POSTGRES_PASSWORD" = some v → DB_PASS env = v) ∧
    (∀ v, env "POSTGRES_HOST" = some v → DB_HOST env = v) ∧
    (∀ v, env "POSTGRES_PORT" = some v → DB_PORT env = v) ∧
    (∀ v, env "POSTGRES_DB" = some v → DB_NAME env = v) ∧
    (∀ v, env "APP_HOST" = some v → APP_HOST env = v) ∧
    (∀ v n, env "APP_PORT" = some v → pyInt v = some n →
      APP_PORT env = some n) := by
  refine ⟨?_, ?_, ?_, ?_, ?_, ?_, ?_, ?_, ?_, ?_, ?_, ?_, ?_, ?_⟩ <;>
    first
    | (intro h; simp [DB_USER, DB_PASS, DB_HOST, DB_PORT, DB_NAME,
        APP_HOST, APP_PORT, getenv, h])
    | (intro v h; simp [DB_USER, DB_PASS, DB_HOST, DB_PORT, DB_NAME,
        APP_HOST, APP_PORT, getenv, h])
    | (intro v n h hp; simp [APP_PORT, h, hp])

/-- Witness for C8 at the empty environment (every variable unset) for
`POSTGRES_USER`, and at an environment setting `APP_PORT` to `"9000"`. -/
theorem config_defaults_witness :
    DB_USER (fun _ => none) = "appuser" ∧
    APP_PORT (fun k => if k = "APP_PORT" then some "9000" else none) =
      some 9000 :=
  ⟨(config_defaults (fun _ => none)).1 rfl,
   (config_defaults (fun k => if k = "APP_PORT" then some "9000" else none)
     ).2.2.2.2.2.2.2.2.2.2.2.2.2 "9000" 9000 (by simp) (by decide)⟩

end FastapiPostgre
